import Mathlib

/-
Shallow embedding of the AEO readiness scanner's content-analysis engine
(src/server.js).  The repository contains two near-duplicate iterations of
the same engine in one file:

* iteration 1 — `runAnalysis` and its five checks (server.js lines 62-338);
* iteration 2 — the page-type-aware `analyzeHTML`, `detectPageType` and its
  five checks (server.js lines 353-789).

Both iterations are embedded below.  Names of the first iteration carry a
`V1` suffix, names of the second a `V2` suffix (the aggregators keep the
source names `runAnalysisV1` / `analyzeHTML`).

The HTML parser (jsdom) and the WHATWG URL library are external collaborators
of the engine; the `Doc` structure records exactly the projections of the
parsed document that the engine queries, and `urlPath` / `urlHost` /
`resolveHost` give a computable model of the URL operations the engine uses
for well-formed absolute http(s) URLs.
-/

namespace Aeo

/-- `pat` occurs as a contiguous sublist of `l`. -/
def hasInfix (l pat : List Char) : Bool :=
  match l with
  | [] => pat.isEmpty
  | c :: t => pat.isPrefixOf (c :: t) || hasInfix t pat

/-- JS `s.includes(pat)`: substring containment on strings. -/
def jsIncludes (s pat : String) : Bool :=
  hasInfix s.data pat.data

/-- JS `s.toLowerCase()` (character-wise lowering). -/
def jsToLower (s : String) : String :=
  String.mk (s.data.map Char.toLower)

/-- JS `s.trim()`: strip leading and trailing whitespace. -/
def jsTrim (s : String) : String :=
  String.mk (((s.data.dropWhile Char.isWhitespace).reverse.dropWhile Char.isWhitespace).reverse)

/-- An HTML element, as much of it as the engine ever looks at:
its tag name (jsdom reports it upper-case, e.g. "P") and its `textContent`. -/
structure Elem where
  tag : String
  text : String
deriving DecidableEq

/-- The `@type` field of a parsed JSON-LD block: absent (or falsy), a single
string, or an array of strings. -/
inductive TypeField
  | absent
  | one (t : String)
  | many (ts : List String)
deriving DecidableEq

/-- One `script[type="application/ld+json"]` block, by its JSON.parse outcome:
`invalid` when `JSON.parse(script.textContent)` throws, otherwise the parsed
block's `@type` field. -/
inductive LdScript
  | invalid
  | parsed (t : TypeField)
deriving DecidableEq

/-- `true` exactly on the blocks whose text content is valid JSON. -/
def LdScript.isParsed : LdScript → Bool
  | .invalid => false
  | .parsed _ => true

/-- The projections of the parsed HTML document that the engine queries.
Field by field:
* `h1`          — `doc.querySelector('h1')`;
* `h1Siblings`  — the `nextElementSibling` chain starting after that h1;
* `ps`          — `textContent` of each element of `doc.querySelectorAll('p')`;
* `h2Count` / `h3Count` / `listCount` — sizes of `querySelectorAll('h2')`,
  `('h3')`, `('ul, ol')`;
* `ldScripts`   — the JSON-LD script blocks, by parse outcome;
* `robotsMeta`  — `content` of `meta[name="robots"]` when present;
* `canonical`   — whether `link[rel="canonical"]` is present;
* `title`       — `textContent` of the `title` element when present;
* `hrefs`       — the `href` attribute of each element of
  `querySelectorAll('a[href]')`;
* `hasProductItemtype` — whether `querySelector('[itemtype*="Product"]')`
  finds an element. -/
structure Doc where
  h1 : Option Elem := none
  h1Siblings : List Elem := []
  ps : List String := []
  h2Count : Nat := 0
  h3Count : Nat := 0
  listCount : Nat := 0
  ldScripts : List LdScript := []
  robotsMeta : Option String := none
  canonical : Bool := false
  title : Option String := none
  hrefs : List String := []
  hasProductItemtype : Bool := false
deriving DecidableEq

/-- The response-header object handed to the engine:
`{ 'x-robots-tag': response.headers['x-robots-tag'] || null }`. -/
structure Headers where
  xRobotsTag : Option String := none
deriving DecidableEq

/-- The result of one rule check (§3 of the spec); `details` is kept as the
ordered list of detail strings (the source joins them with a newline when
building the record).  Detail strings are modelled without their interpolated
fragments (element text excerpts, character counts); no claim depends on
them.  First-iteration checks do not set `isOptional` (JS `undefined`,
falsy), modelled as `false`. -/
structure CheckResult where
  title : String
  points : Nat
  maxPoints : Nat
  pass : Bool
  details : List String
  recommendations : List String
  isOptional : Bool := false
deriving DecidableEq

instance : Inhabited CheckResult :=
  ⟨{ title := "", points := 0, maxPoints := 1, pass := false,
     details := [], recommendations := [] }⟩

/-- The (points, details, recommendations, isOptional) accumulator a check
body builds up by mutation before its single `return`. -/
structure CheckOutcome where
  points : Nat
  details : List String
  recs : List String
  isOptional : Bool := false

/-! ### URL model

Computable model of the WHATWG URL operations the engine uses, for
well-formed absolute http(s) URLs (the route handler rejects anything not
starting with `http://` or `https://` before the engine runs). -/

/-- Strip a leading `http://` or `https://` scheme. -/
def dropScheme (url : String) : String :=
  if "https://".data.isPrefixOf url.data then String.mk (url.data.drop 8)
  else if "http://".data.isPrefixOf url.data then String.mk (url.data.drop 7)
  else url

/-- Modelled `new URL(url).hostname` for an absolute http(s) URL: the
authority up to the first `/`, `?` or `#`, with any `:port` removed. -/
def urlHost (url : String) : String :=
  let auth := (dropScheme url).data.takeWhile (fun c => c != '/' && c != '?' && c != '#')
  String.mk (auth.takeWhile (fun c => c != ':'))

/-- Modelled `new URL(url).pathname` for an absolute http(s) URL: from the
first `/` after the authority up to the query or fragment; `/` when the URL
has no path. -/
def urlPath (url : String) : String :=
  let afterHost := (dropScheme url).data.dropWhile (fun c => c != '/')
  if afterHost.isEmpty then "/"
  else String.mk (afterHost.takeWhile (fun c => c != '?' && c != '#'))

/-- Modelled `new URL(href, base).hostname`: an absolute http(s) `href`
supplies its own host (throwing — `none` — when the authority is empty, as
`new URL("http://")` does); a protocol-relative `//…` href supplies its own
host; any other href is resolved against the base and keeps the base's host.
A simplified but computable model of WHATWG URL resolution, adequate for the
hostname comparison the engine performs. -/
def resolveHost (href base : String) : Option String :=
  if "http://".data.isPrefixOf href.data || "https://".data.isPrefixOf href.data then
    let h := urlHost href
    if h = "" then none else some h
  else if "//".data.isPrefixOf href.data then
    let h := String.mk (((href.data.drop 2).takeWhile
      (fun c => c != '/' && c != '?' && c != '#')).takeWhile (fun c => c != ':'))
    if h = "" then none else some h
  else
    some (urlHost base)

/-! ### Helpers shared by the two engine iterations -/

/-- The definition-paragraph search (identical in both iterations, server.js
lines 126-139 and 457-470): walk the sibling chain after the h1 and take the
first `P` with non-empty trimmed text; if the walk finds none, fall back to
`allPs[0]` when the document has any paragraph.  Returns the chosen
paragraph's (untrimmed) `textContent`. -/
def findDefPara (doc : Doc) : Option String :=
  match doc.h1Siblings.find? (fun e => e.tag == "P" && (jsTrim e.text).length > 0) with
  | some e => some e.text
  | none => doc.ps.head?

/-- Insertion into the `schemas` JS `Set` (insertion order, first occurrence
kept). -/
def insertUniq (acc : List String) (t : String) : List String :=
  if t ∈ acc then acc else acc ++ [t]

/-- One step of the schema-collection loop: a block whose JSON failed to
parse is skipped (the catch branch), a parsed block adds its `@type`
value(s) to the set. -/
def addScript (acc : List String) (s : LdScript) : List String :=
  match s with
  | .invalid => acc
  | .parsed .absent => acc
  | .parsed (.one t) => insertUniq acc t
  | .parsed (.many ts) => ts.foldl insertUniq acc

/-- The schema-collection loop (server.js lines 223-235 and 576-590,
semantically identical): for each script block, skip it if its JSON failed to
parse, otherwise add its `@type` value(s) to the set.  `Array.from` of the
resulting `Set` in insertion order. -/
def collectSchemas (scripts : List LdScript) : List String :=
  scripts.foldl addScript []

/-- `title && title.textContent.trim()`: a title element exists and its
trimmed text is non-empty. -/
def titleOk (doc : Doc) : Bool :=
  match doc.title with
  | some t => jsTrim t != ""
  | none => false

/-- The no-exclusion-signal test of the first iteration's Crawlability check
(server.js lines 309-315): a `robots` meta tag whose content contains
"noindex" (case-insensitively), or an `x-robots-tag` header containing
"noindex". -/
def noindexSignal (doc : Doc) (headers : Headers) : Bool :=
  (match doc.robotsMeta with
   | some c => jsIncludes (jsToLower c) "noindex"
   | none => false)
  ||
  (match headers.xRobotsTag with
   | some v => jsIncludes (jsToLower v) "noindex"
   | none => false)

/-! ### Second iteration (page-type aware engine, server.js 353-789) -/

/-- `doc.querySelector('title')?.textContent.toLowerCase() || ''`. -/
def titleLower (doc : Doc) : String :=
  (doc.title.map jsToLower).getD ""

/-- `doc.querySelector('h1')?.textContent.toLowerCase() || ''`. -/
def h1Lower (doc : Doc) : String :=
  (doc.h1.map (fun e => jsToLower e.text)).getD ""

/-- Homepage test of `detectPageType` (line 405). -/
def homepageMatch (url : String) : Bool :=
  urlPath url == "/" || urlPath url == "/index.html" || urlPath url == "/home"

/-- Article test of `detectPageType` (lines 410-411). -/
def articleMatch (url : String) : Bool :=
  let u := jsToLower url
  jsIncludes u "/blog/" || jsIncludes u "/article/" || jsIncludes u "/post/" || jsIncludes u "/news/"

/-- Recipe test of `detectPageType` (line 416). -/
def recipeMatch (doc : Doc) (url : String) : Bool :=
  jsIncludes (jsToLower url) "/recipe" || jsIncludes (titleLower doc) "recipe" || jsIncludes (h1Lower doc) "recipe"

/-- Product test of `detectPageType` (lines 421-422). -/
def productMatch (doc : Doc) (url : String) : Bool :=
  jsIncludes (jsToLower url) "/product" || jsIncludes (jsToLower url) "/shop/" || doc.hasProductItemtype

/-- FAQ test of `detectPageType` (line 427). -/
def faqMatch (doc : Doc) (url : String) : Bool :=
  jsIncludes (jsToLower url) "/faq" || jsIncludes (titleLower doc) "faq" || jsIncludes (h1Lower doc) "faq"

/-- `detectPageType(doc, url)` (server.js 398-433): first match wins, in the
order homepage, article, recipe, product, faq, content. -/
def detectPageType (doc : Doc) (url : String) : String :=
  if homepageMatch url then "homepage"
  else if articleMatch url then "article"
  else if recipeMatch doc url then "recipe"
  else if productMatch doc url then "product"
  else if faqMatch doc url then "faq"
  else "content"

/-- The explanatory-pattern test of the second iteration's
`checkAnswerExtraction` (server.js 476-477): the lower-cased definition text
contains " is a ", " are ", " refers to " or " means ". -/
def hasIsAPattern (defText : String) : Bool :=
  let defLower := jsToLower defText
  jsIncludes defLower " is a " || jsIncludes defLower " are " ||
    jsIncludes defLower " refers to " || jsIncludes defLower " means "

/-- The definition-paragraph credit block of the second iteration's
`checkAnswerExtraction` (server.js 472-492), as a function of the trimmed
definition text: (points added, details added, recommendations added). -/
def defCreditV2 (defText : String) : Nat × List String × List String :=
  let hasIsA := hasIsAPattern defText
  if defText.length > 0 && defText.length ≤ 250 then
    if hasIsA then
      (15, ["✓ Definition paragraph found", "✓ Definition uses clear explanatory pattern"], [])
    else
      (10, ["✓ Definition paragraph found"], [])
  else if defText.length > 250 then
    (7, ["ℹ Definition paragraph present but could be more concise"],
     ["Consider making the opening definition more concise (under 250 characters)"])
  else
    (0, [], [])

/-- Body of the second iteration's `checkAnswerExtraction` (server.js
435-510). -/
def answerCoreV2 (doc : Doc) : CheckOutcome :=
  match doc.h1 with
  | none =>
    { points := 0, details := [], recs := ["Add a clear H1 heading to your page"] }
  | some h1e =>
    let h1Text := jsToLower h1e.text
    let questionCue := jsIncludes h1Text "what" || jsIncludes h1Text "how" ||
      jsIncludes h1Text "why" || jsIncludes h1Text "?"
    let p1 : Nat := 10 + (if questionCue then 5 else 0)
    let d1 : List String := ["✓ H1 found"] ++
      (if questionCue then ["✓ H1 is formatted as a question"]
       else ["ℹ H1 could be formatted as a question for better AEO"])
    match findDefPara doc with
    | some para =>
      let dc := defCreditV2 (jsTrim para)
      { points := p1 + dc.1, details := d1 ++ dc.2.1, recs := dc.2.2 }
    | none =>
      { points := p1, details := d1,
        recs := ["Add a clear definition paragraph near the top of the content"] }

/-- `checkAnswerExtraction(doc)` of the second iteration. -/
def checkAnswerExtractionV2 (doc : Doc) : CheckResult :=
  let c := answerCoreV2 doc
  { title := "Answer Extraction", points := c.points, maxPoints := 30,
    pass := decide (c.points ≥ 15), details := c.details,
    recommendations := c.recs, isOptional := c.isOptional }

/-- Body of the second iteration's `checkContentStructure` (server.js
512-564). -/
def structureCoreV2 (doc : Doc) : CheckOutcome :=
  let t1 : Nat × List String × List String :=
    if doc.h2Count ≥ 3 then (15, ["✓ Good heading structure"], [])
    else if doc.h2Count ≥ 2 then (10, ["✓ Adequate heading structure"], [])
    else if doc.h2Count = 1 then
      (5, [], ["Add more H2 sections to improve content structure (aim for 3+)"])
    else (0, [], ["Break content into clear H2 sections for better AI comprehension"])
  let t2 : Nat × List String :=
    if doc.h3Count ≥ 2 then (2, ["✓ Subsections present"]) else (0, [])
  let t3 : Nat × List String × List String :=
    if doc.listCount ≥ 2 then (8, ["✓ Lists present"], [])
    else if doc.listCount = 1 then
      (5, ["✓ List present (consider adding more for better structure)"], [])
    else (0, [], ["Add bulleted or numbered lists to improve scanability"])
  { points := t1.1 + t2.1 + t3.1, details := t1.2.1 ++ t2.2 ++ t3.2.1,
    recs := t1.2.2 ++ t3.2.2 }

/-- `checkContentStructure(doc)` of the second iteration. -/
def checkContentStructureV2 (doc : Doc) : CheckResult :=
  let c := structureCoreV2 doc
  { title := "Content Structure", points := c.points, maxPoints := 25,
    pass := decide (c.points ≥ 13), details := c.details,
    recommendations := c.recs, isOptional := c.isOptional }

/-- Body of the second iteration's `checkSchemaPresence` (server.js 566-663):
page-type-aware branch, then the cross-cutting bonus (`if any schema was
found and points < 15, add 5`). -/
def schemaCoreV2 (doc : Doc) (pageType : String) : CheckOutcome :=
  let schemaArray := collectSchemas doc.ldScripts
  let q : Nat × List String × List String × Bool :=
    if pageType == "homepage" then
      if schemaArray.any (fun s => jsIncludes s "Organization" || jsIncludes s "WebSite") then
        (20, ["✓ Organization/Website schema found"], [], true)
      else
        (15, ["ℹ Homepage - Organization schema recommended but optional"], [], true)
    else if pageType == "article" then
      let ta : Nat × List String × List String :=
        if schemaArray.any (fun s => jsIncludes s "Article" || s == "BlogPosting" || s == "NewsArticle") then
          (15, ["✓ Article schema found"], [])
        else (5, [], ["Add Article or BlogPosting schema for better AEO"])
      let tf : Nat × List String :=
        if schemaArray.any (fun s => jsIncludes s "FAQ") then (10, ["✓ FAQ schema found"])
        else (5, [])
      (ta.1 + tf.1, ta.2.1 ++ tf.2, ta.2.2, false)
    else if pageType == "recipe" then
      if schemaArray.any (fun s => jsIncludes s "Recipe") then
        (20, ["✓ Recipe schema found"], [], false)
      else (0, [], ["Add Recipe schema for recipe content"], false)
    else if pageType == "product" then
      if schemaArray.any (fun s => jsIncludes s "Product") then
        (20, ["✓ Product schema found"], [], false)
      else (5, [], ["Add Product schema for better visibility"], false)
    else
      if schemaArray.length > 0 then (20, ["✓ Structured data found"], [], false)
      else (10, [], ["Consider adding relevant schema markup (Article, HowTo, FAQ, etc.)"], false)
  let points := if schemaArray.length > 0 && q.1 < 15 then q.1 + 5 else q.1
  { points := points, details := q.2.1, recs := q.2.2.1, isOptional := q.2.2.2 }

/-- `checkSchemaPresence(doc, pageType)` of the second iteration. -/
def checkSchemaPresenceV2 (doc : Doc) (pageType : String) : CheckResult :=
  let c := schemaCoreV2 doc pageType
  { title := "Schema Markup", points := c.points, maxPoints := 25,
    pass := decide (c.points ≥ 12), details := c.details,
    recommendations := c.recs, isOptional := c.isOptional }

/-- The internal-link count of the second iteration (server.js 675-685):
hrefs with a falsy (empty) value are skipped, a href whose resolution throws
is skipped, and a resolved link counts when its hostname equals the page
URL's hostname. -/
def internalLinkCountV2 (doc : Doc) (url : String) : Nat :=
  (doc.hrefs.filter
    (fun href => href != "" && resolveHost href url == some (urlHost url))).length

/-- Body of the second iteration's `checkInternalLinking` (server.js
665-710). -/
def linkingCoreV2 (doc : Doc) (url : String) : CheckOutcome :=
  let n := internalLinkCountV2 doc url
  if n ≥ 3 then { points := 10, details := ["✓ Good internal linking"], recs := [] }
  else if n ≥ 1 then
    { points := 7, details := ["✓ Internal links present"],
      recs := ["Consider adding more internal links to related content (aim for 3+)"] }
  else
    { points := 3, details := [],
      recs := ["Add internal links to related content for better topic clustering"] }

/-- `checkInternalLinking(doc, url)` of the second iteration. -/
def checkInternalLinkingV2 (doc : Doc) (url : String) : CheckResult :=
  let c := linkingCoreV2 doc url
  { title := "Internal Linking", points := c.points, maxPoints := 10,
    pass := decide (c.points ≥ 7), details := c.details,
    recommendations := c.recs, isOptional := c.isOptional }

/-- Body of the second iteration's `checkCrawlability` (server.js 712-752).
It inspects only the status code, the canonical tag and the title; the
`headers`, `originalUrl` and `finalUrl` parameters of the source function are
never read. -/
def crawlCoreV2 (doc : Doc) (statusCode : Int) : CheckOutcome :=
  let t1 : Nat × List String × List String :=
    if statusCode == 200 then (5, ["✓ Page loads successfully (200 OK)"], [])
    else (0, [], ["Fix HTTP status code"])
  let t2 : Nat × List String × List String :=
    if doc.canonical then (3, ["✓ Canonical tag present"], [])
    else (1, [], ["Add a canonical tag to specify preferred URL"])
  let t3 : Nat × List String × List String :=
    if titleOk doc then (2, ["✓ Title tag present"], [])
    else (0, [], ["Add a descriptive title tag"])
  { points := t1.1 + t2.1 + t3.1, details := t1.2.1 ++ t2.2.1 ++ t3.2.1,
    recs := t1.2.2 ++ t2.2.2 ++ t3.2.2 }

/-- `checkCrawlability(doc, statusCode, headers, originalUrl, finalUrl)` of
the second iteration (the last three parameters are unused in the source and
kept here for signature fidelity). -/
def checkCrawlabilityV2 (doc : Doc) (statusCode : Int) (_headers : Headers)
    (_originalUrl _finalUrl : String) : CheckResult :=
  let c := crawlCoreV2 doc statusCode
  { title := "Crawlability", points := c.points, maxPoints := 10,
    pass := decide (c.points ≥ 6), details := c.details,
    recommendations := c.recs, isOptional := c.isOptional }

/-- The analysis result of the second iteration (`pageType` is absent from
the first iteration's result). -/
structure AnalysisResult where
  score : Int
  checks : List CheckResult
  recommendations : List String
  pageType : String

/-- JS `Math.round(x)`: `⌊x + 1/2⌋`. -/
def jsRound (q : ℚ) : ℤ := ⌊q + 1 / 2⌋

/-- Sum of the `points` of a list of check results. -/
def sumPoints (cs : List CheckResult) : Nat := (cs.map (·.points)).sum

/-- `checks.reduce((sum, check) => sum + check.maxPoints, 0)`. -/
def sumMaxPoints (cs : List CheckResult) : Nat := (cs.map (·.maxPoints)).sum

/-- `analyzeHTML(html, url, statusCode, headers, finalUrl)` (server.js
353-396), taking the already-parsed document in place of the HTML string
(the jsdom parse is the excluded collaborator). -/
def analyzeHTML (doc : Doc) (url : String) (statusCode : Int)
    (headers : Headers) (finalUrl : String) : AnalysisResult :=
  let pageType := detectPageType doc url
  let answerCheck := checkAnswerExtractionV2 doc
  let structureCheck := checkContentStructureV2 doc
  let schemaCheck := checkSchemaPresenceV2 doc pageType
  let linkingCheck := checkInternalLinkingV2 doc url
  let crawlCheck := checkCrawlabilityV2 doc statusCode headers url finalUrl
  let checks := [answerCheck, structureCheck, schemaCheck, linkingCheck, crawlCheck]
  let totalPoints := answerCheck.points + structureCheck.points + schemaCheck.points +
    linkingCheck.points + crawlCheck.points
  let recommendations :=
    (if !answerCheck.pass then answerCheck.recommendations else []) ++
    (if !structureCheck.pass then structureCheck.recommendations else []) ++
    (if !schemaCheck.pass && !schemaCheck.isOptional then schemaCheck.recommendations else []) ++
    (if !linkingCheck.pass then linkingCheck.recommendations else []) ++
    (if !crawlCheck.pass then crawlCheck.recommendations else [])
  let maxPossible := sumMaxPoints checks
  let score := jsRound (((totalPoints : ℚ) / (maxPossible : ℚ)) * 100)
  { score := score, checks := checks, recommendations := recommendations, pageType := pageType }

/-! ### First iteration (server.js 62-338) -/

/-- The definition-paragraph credit block of the first iteration's
`checkAnswerExtraction` (server.js 141-156): 150/300-character thresholds,
(points added, recommendations added). -/
def defCreditV1 (defText : String) : Nat × List String :=
  if defText.length > 0 && defText.length ≤ 150 then (12, [])
  else if defText.length > 150 && defText.length ≤ 300 then
    (6, ["Shorten the opening definition to under 150 characters"])
  else (3, ["Add a concise definition paragraph directly after the H1"])

/-- Body of the first iteration's `checkAnswerExtraction` (server.js
101-178). -/
def answerCoreV1 (doc : Doc) : CheckOutcome :=
  match doc.h1 with
  | none =>
    { points := 0, details := [],
      recs := ["Add a clear H1 heading, ideally formatted as a question"] }
  | some h1e =>
    let h1Text := jsToLower h1e.text
    let questionCue := jsIncludes h1Text "what" || jsIncludes h1Text "how" ||
      jsIncludes h1Text "why" || jsIncludes h1Text "?"
    let p1 : Nat := 8 + (if questionCue then 4 else 0)
    let d1 : List String := ["✓ H1 found"] ++
      (if questionCue then ["✓ H1 is formatted as a question"] else [])
    match findDefPara doc with
    | some para =>
      let dc := defCreditV1 (jsTrim para)
      { points := p1 + dc.1,
        details := d1 ++ (if dc.1 = 12 then ["✓ Concise definition found"] else []),
        recs := dc.2 }
    | none =>
      { points := p1, details := d1,
        recs := ["Add a concise definition paragraph directly after the H1"] }

/-- First iteration's `checkAnswerExtraction(doc)`. -/
def checkAnswerExtractionV1 (doc : Doc) : CheckResult :=
  let c := answerCoreV1 doc
  { title := "Answer Extraction", points := c.points, maxPoints := 30,
    pass := decide (c.points ≥ 18), details := c.details,
    recommendations := c.recs, isOptional := c.isOptional }

/-- Body of the first iteration's `checkContentStructure` (server.js
180-212). -/
def structureCoreV1 (doc : Doc) : CheckOutcome :=
  let t1 : Nat × List String :=
    if doc.h2Count ≥ 4 then (12, [])
    else if doc.h2Count ≥ 2 then (6, ["Add more H2 sections"])
    else (0, ["Break content into H2 sections"])
  let p2 : Nat := if doc.h3Count ≥ 2 then 5 else 0
  let p3 : Nat := if doc.listCount ≥ 2 then 8 else 0
  { points := t1.1 + p2 + p3, details := [], recs := t1.2 }

/-- First iteration's `checkContentStructure(doc)`. -/
def checkContentStructureV1 (doc : Doc) : CheckResult :=
  let c := structureCoreV1 doc
  { title := "Content Structure", points := c.points, maxPoints := 25,
    pass := decide (c.points ≥ 15), details := c.details,
    recommendations := c.recs, isOptional := c.isOptional }

/-- Body of the first iteration's `checkSchemaPresence` (server.js 214-256):
no page-type awareness. -/
def schemaCoreV1 (doc : Doc) : CheckOutcome :=
  let schemaArray := collectSchemas doc.ldScripts
  let t1 : Nat × List String :=
    if schemaArray.any (fun s => jsIncludes s "Article") then (10, [])
    else (0, ["Add Article or BlogPosting schema"])
  let t2 : Nat × List String :=
    if schemaArray.any (fun s => jsIncludes s "FAQ") then (8, [])
    else (0, ["Add FAQ schema"])
  let d :=
    if schemaArray.length > 0 then ["✓ Schemas found"] else ["✗ No schema markup detected"]
  { points := t1.1 + t2.1, details := d, recs := t1.2 ++ t2.2 }

/-- First iteration's `checkSchemaPresence(doc)`. -/
def checkSchemaPresenceV1 (doc : Doc) : CheckResult :=
  let c := schemaCoreV1 doc
  { title := "Schema Markup", points := c.points, maxPoints := 25,
    pass := decide (c.points ≥ 10), details := c.details,
    recommendations := c.recs, isOptional := c.isOptional }

/-- The internal-link count of the first iteration (server.js 269-277): no
falsy-href guard, otherwise as in the second iteration. -/
def internalLinkCountV1 (doc : Doc) (url : String) : Nat :=
  (doc.hrefs.filter (fun href => resolveHost href url == some (urlHost url))).length

/-- Body of the first iteration's `checkInternalLinking` (server.js 258-298).
The source wraps the body in a try/catch whose only throwing operation is
`new URL(url)` on the page's own URL; the caller guarantees a well-formed
absolute URL, so the catch branch is unreachable and not modelled. -/
def linkingCoreV1 (doc : Doc) (url : String) : CheckOutcome :=
  let n := internalLinkCountV1 doc url
  if n ≥ 3 then { points := 6, details := [], recs := [] }
  else if n > 0 then { points := 3, details := [], recs := ["Add more internal links"] }
  else { points := 0, details := [], recs := ["Add internal links"] }

/-- First iteration's `checkInternalLinking(doc, url)`. -/
def checkInternalLinkingV1 (doc : Doc) (url : String) : CheckResult :=
  let c := linkingCoreV1 doc url
  { title := "Internal Linking", points := c.points, maxPoints := 10,
    pass := decide (c.points ≥ 6), details := c.details,
    recommendations := c.recs, isOptional := c.isOptional }

/-- Body of the first iteration's `checkCrawlability` (server.js 300-338):
status code, no-exclusion-signal, canonical tag, title tag. -/
def crawlCoreV1 (doc : Doc) (statusCode : Int) (headers : Headers) : CheckOutcome :=
  let t1 : Nat × List String :=
    if statusCode == 200 then (3, []) else (0, ["Fix HTTP status code"])
  let t2 : Nat × List String :=
    if !(noindexSignal doc headers) then (3, [])
    else (0, ["Remove noindex directives"])
  let t3 : Nat × List String :=
    if doc.canonical then (2, []) else (0, ["Add a canonical tag"])
  let t4 : Nat × List String :=
    if titleOk doc then (2, []) else (0, ["Add a title tag"])
  { points := t1.1 + t2.1 + t3.1 + t4.1, details := [],
    recs := t1.2 ++ t2.2 ++ t3.2 ++ t4.2 }

/-- First iteration's
`checkCrawlability(doc, statusCode, headers, originalUrl, finalUrl)` (the
last two parameters are unused in the source and kept for signature
fidelity). -/
def checkCrawlabilityV1 (doc : Doc) (statusCode : Int) (headers : Headers)
    (_originalUrl _finalUrl : String) : CheckResult :=
  let c := crawlCoreV1 doc statusCode headers
  { title := "Crawlability", points := c.points, maxPoints := 10,
    pass := decide (c.points ≥ 6), details := c.details,
    recommendations := c.recs, isOptional := c.isOptional }

/-- The analysis result of the first iteration: no `pageType` field. -/
structure AnalysisResultV1 where
  score : Int
  checks : List CheckResult
  recommendations : List String

/-- `runAnalysis(html, url, statusCode, headers, finalUrl)` of the first
iteration (server.js 62-99), taking the parsed document in place of the HTML
string. -/
def runAnalysisV1 (doc : Doc) (url : String) (statusCode : Int)
    (headers : Headers) (finalUrl : String) : AnalysisResultV1 :=
  let answerCheck := checkAnswerExtractionV1 doc
  let structureCheck := checkContentStructureV1 doc
  let schemaCheck := checkSchemaPresenceV1 doc
  let linkingCheck := checkInternalLinkingV1 doc url
  let crawlCheck := checkCrawlabilityV1 doc statusCode headers url finalUrl
  let checks := [answerCheck, structureCheck, schemaCheck, linkingCheck, crawlCheck]
  let totalPoints := answerCheck.points + structureCheck.points + schemaCheck.points +
    linkingCheck.points + crawlCheck.points
  let recommendations :=
    (if !answerCheck.pass then answerCheck.recommendations else []) ++
    (if !structureCheck.pass then structureCheck.recommendations else []) ++
    (if !schemaCheck.pass then schemaCheck.recommendations else []) ++
    (if !linkingCheck.pass then linkingCheck.recommendations else []) ++
    (if !crawlCheck.pass then crawlCheck.recommendations else [])
  let maxPossible := sumMaxPoints checks
  let score := jsRound (((totalPoints : ℚ) / (maxPossible : ℚ)) * 100)
  { score := score, checks := checks, recommendations := recommendations }

/-! ### Point bounds: each check stays within its `maxPoints` -/

theorem defCreditV2_le (s : String) : (defCreditV2 s).1 ≤ 15 := by
  unfold defCreditV2
  simp only [apply_ite (Prod.fst)]
  split_ifs <;> simp

theorem answerCoreV2_le (doc : Doc) : (answerCoreV2 doc).points ≤ 30 := by
  unfold answerCoreV2
  cases hh : doc.h1 with
  | none => simp
  | some e =>
    simp only [hh]
    cases h : findDefPara doc with
    | some para =>
      have hd := defCreditV2_le (jsTrim para)
      simp only [h]
      split_ifs <;> simp_all <;> omega
    | none =>
      simp only [h]
      split_ifs <;> simp

theorem structureCoreV2_le (doc : Doc) : (structureCoreV2 doc).points ≤ 25 := by
  simp only [structureCoreV2]
  simp only [apply_ite (Prod.fst)]
  split_ifs <;> simp

theorem schemaCoreV2_le (doc : Doc) (pt : String) : (schemaCoreV2 doc pt).points ≤ 25 := by
  simp only [schemaCoreV2]
  simp only [apply_ite (Prod.fst)]
  split_ifs <;> simp_all

theorem linkingCoreV2_le (doc : Doc) (url : String) : (linkingCoreV2 doc url).points ≤ 10 := by
  simp only [linkingCoreV2]
  split_ifs <;> simp

theorem crawlCoreV2_le (doc : Doc) (status : Int) : (crawlCoreV2 doc status).points ≤ 10 := by
  simp only [crawlCoreV2]
  simp only [apply_ite (Prod.fst)]
  split_ifs <;> simp

theorem defCreditV1_le (s : String) : (defCreditV1 s).1 ≤ 12 := by
  unfold defCreditV1
  simp only [apply_ite (Prod.fst)]
  split_ifs <;> simp

theorem answerCoreV1_le (doc : Doc) : (answerCoreV1 doc).points ≤ 30 := by
  unfold answerCoreV1
  cases hh : doc.h1 with
  | none => simp
  | some e =>
    simp only [hh]
    cases h : findDefPara doc with
    | some para =>
      have hd := defCreditV1_le (jsTrim para)
      simp only [h]
      split_ifs <;> simp_all <;> omega
    | none =>
      simp only [h]
      split_ifs <;> simp

theorem structureCoreV1_le (doc : Doc) : (structureCoreV1 doc).points ≤ 25 := by
  simp only [structureCoreV1]
  simp only [apply_ite (Prod.fst)]
  split_ifs <;> simp

theorem schemaCoreV1_le (doc : Doc) : (schemaCoreV1 doc).points ≤ 25 := by
  simp only [schemaCoreV1]
  simp only [apply_ite (Prod.fst)]
  split_ifs <;> simp

theorem linkingCoreV1_le (doc : Doc) (url : String) : (linkingCoreV1 doc url).points ≤ 10 := by
  simp only [linkingCoreV1]
  split_ifs <;> simp

theorem crawlCoreV1_le (doc : Doc) (status : Int) (hdrs : Headers) :
    (crawlCoreV1 doc status hdrs).points ≤ 10 := by
  simp only [crawlCoreV1]
  simp only [apply_ite (Prod.fst)]
  split_ifs <;> simp

/-! ### isOptional values of the checks -/

theorem answerCoreV2_opt (doc : Doc) : (answerCoreV2 doc).isOptional = false := by
  unfold answerCoreV2
  cases hh : doc.h1 with
  | none => rfl
  | some e =>
    simp only [hh]
    cases h : findDefPara doc with
    | some para => simp only [h]
    | none => simp only [h]

theorem answerCoreV1_opt (doc : Doc) : (answerCoreV1 doc).isOptional = false := by
  unfold answerCoreV1
  cases hh : doc.h1 with
  | none => rfl
  | some e =>
    simp only [hh]
    cases h : findDefPara doc with
    | some para => simp only [h]
    | none => simp only [h]

theorem linkingCoreV2_opt (doc : Doc) (url : String) :
    (linkingCoreV2 doc url).isOptional = false := by
  simp only [linkingCoreV2]
  split_ifs <;> rfl

theorem linkingCoreV1_opt (doc : Doc) (url : String) :
    (linkingCoreV1 doc url).isOptional = false := by
  simp only [linkingCoreV1]
  split_ifs <;> rfl

/-! ### Check-level field facts -/

theorem checkAnswerV2_points_le (doc : Doc) :
    (checkAnswerExtractionV2 doc).points ≤ 30 := answerCoreV2_le doc

theorem checkStructureV2_points_le (doc : Doc) :
    (checkContentStructureV2 doc).points ≤ 25 := structureCoreV2_le doc

theorem checkSchemaV2_points_le (doc : Doc) (pt : String) :
    (checkSchemaPresenceV2 doc pt).points ≤ 25 := schemaCoreV2_le doc pt

theorem checkLinkingV2_points_le (doc : Doc) (url : String) :
    (checkInternalLinkingV2 doc url).points ≤ 10 := linkingCoreV2_le doc url

theorem checkCrawlV2_points_le (doc : Doc) (status : Int) (hdrs : Headers) (u f : String) :
    (checkCrawlabilityV2 doc status hdrs u f).points ≤ 10 := crawlCoreV2_le doc status

theorem checkAnswerV1_points_le (doc : Doc) :
    (checkAnswerExtractionV1 doc).points ≤ 30 := answerCoreV1_le doc

theorem checkStructureV1_points_le (doc : Doc) :
    (checkContentStructureV1 doc).points ≤ 25 := structureCoreV1_le doc

theorem checkSchemaV1_points_le (doc : Doc) :
    (checkSchemaPresenceV1 doc).points ≤ 25 := schemaCoreV1_le doc

theorem checkLinkingV1_points_le (doc : Doc) (url : String) :
    (checkInternalLinkingV1 doc url).points ≤ 10 := linkingCoreV1_le doc url

theorem checkCrawlV1_points_le (doc : Doc) (status : Int) (hdrs : Headers) (u f : String) :
    (checkCrawlabilityV1 doc status hdrs u f).points ≤ 10 := crawlCoreV1_le doc status hdrs

/-! ### Aggregation helpers -/

theorem sumPoints_five (a b c d e : CheckResult) :
    sumPoints [a, b, c, d, e] = a.points + b.points + c.points + d.points + e.points := by
  simp [sumPoints]
  omega

theorem sumMaxPoints_five (a b c d e : CheckResult) :
    sumMaxPoints [a, b, c, d, e] =
      a.maxPoints + b.maxPoints + c.maxPoints + d.maxPoints + e.maxPoints := by
  simp [sumMaxPoints]
  omega

theorem jsRound_natCast (t : ℕ) : jsRound (t : ℚ) = (t : ℤ) := by
  unfold jsRound
  rw [Int.floor_eq_iff]
  constructor
  · push_cast
    linarith
  · push_cast
    linarith

theorem jsRound_div_hundred (t : ℕ) : jsRound ((t : ℚ) / 100 * 100) = (t : ℤ) := by
  rw [div_mul_cancel₀ _ (by norm_num : (100 : ℚ) ≠ 0)]
  exact jsRound_natCast t

theorem jsRound_hundred_mul (t : ℕ) : jsRound (100 * ((t : ℚ) / 100)) = (t : ℤ) := by
  rw [mul_comm]
  exact jsRound_div_hundred t

theorem cast100 : ((100 : ℕ) : ℚ) = (100 : ℚ) := by norm_num

/-- C1: for every input, in both engine iterations, the returned score equals
round(100 × Σpoints / ΣmaxPoints) over the five checks, and that score is an
integer between 0 and 100 inclusive. -/
theorem score_normalized_round (doc : Doc) (url : String) (status : Int)
    (hdrs : Headers) (furl : String) :
    ((analyzeHTML doc url status hdrs furl).score =
        jsRound (100 * ((sumPoints (analyzeHTML doc url status hdrs furl).checks : ℚ) /
            (sumMaxPoints (analyzeHTML doc url status hdrs furl).checks : ℚ))) ∧
      0 ≤ (analyzeHTML doc url status hdrs furl).score ∧
      (analyzeHTML doc url status hdrs furl).score ≤ 100) ∧
    ((runAnalysisV1 doc url status hdrs furl).score =
        jsRound (100 * ((sumPoints (runAnalysisV1 doc url status hdrs furl).checks : ℚ) /
            (sumMaxPoints (runAnalysisV1 doc url status hdrs furl).checks : ℚ))) ∧
      0 ≤ (runAnalysisV1 doc url status hdrs furl).score ∧
      (runAnalysisV1 doc url status hdrs furl).score ≤ 100) := by
  have hchecksA : (analyzeHTML doc url status hdrs furl).checks =
      [checkAnswerExtractionV2 doc, checkContentStructureV2 doc,
       checkSchemaPresenceV2 doc (detectPageType doc url),
       checkInternalLinkingV2 doc url,
       checkCrawlabilityV2 doc status hdrs url furl] := rfl
  have hchecksB : (runAnalysisV1 doc url status hdrs furl).checks =
      [checkAnswerExtractionV1 doc, checkContentStructureV1 doc,
       checkSchemaPresenceV1 doc,
       checkInternalLinkingV1 doc url,
       checkCrawlabilityV1 doc status hdrs url furl] := rfl
  have hmaxA : sumMaxPoints (analyzeHTML doc url status hdrs furl).checks = 100 := by
    rw [hchecksA, sumMaxPoints_five]
    rfl
  have hmaxB : sumMaxPoints (runAnalysisV1 doc url status hdrs furl).checks = 100 := by
    rw [hchecksB, sumMaxPoints_five]
    rfl
  have hscoreA : (analyzeHTML doc url status hdrs furl).score =
      jsRound ((sumPoints (analyzeHTML doc url status hdrs furl).checks : ℚ) /
        (sumMaxPoints (analyzeHTML doc url status hdrs furl).checks : ℚ) * 100) := by
    conv_rhs => rw [hchecksA, sumPoints_five]
    rfl
  have hscoreB : (runAnalysisV1 doc url status hdrs furl).score =
      jsRound ((sumPoints (runAnalysisV1 doc url status hdrs furl).checks : ℚ) /
        (sumMaxPoints (runAnalysisV1 doc url status hdrs furl).checks : ℚ) * 100) := by
    conv_rhs => rw [hchecksB, sumPoints_five]
    rfl
  have hstA : (analyzeHTML doc url status hdrs furl).score =
      ((sumPoints (analyzeHTML doc url status hdrs furl).checks : ℕ) : ℤ) := by
    rw [hscoreA, hmaxA, cast100]
    exact jsRound_div_hundred _
  have hstB : (runAnalysisV1 doc url status hdrs furl).score =
      ((sumPoints (runAnalysisV1 doc url status hdrs furl).checks : ℕ) : ℤ) := by
    rw [hscoreB, hmaxB, cast100]
    exact jsRound_div_hundred _
  have hboundA : sumPoints (analyzeHTML doc url status hdrs furl).checks ≤ 100 := by
    rw [hchecksA, sumPoints_five]
    have b1 := checkAnswerV2_points_le doc
    have b2 := checkStructureV2_points_le doc
    have b3 := checkSchemaV2_points_le doc (detectPageType doc url)
    have b4 := checkLinkingV2_points_le doc url
    have b5 := checkCrawlV2_points_le doc status hdrs url furl
    omega
  have hboundB : sumPoints (runAnalysisV1 doc url status hdrs furl).checks ≤ 100 := by
    rw [hchecksB, sumPoints_five]
    have b1 := checkAnswerV1_points_le doc
    have b2 := checkStructureV1_points_le doc
    have b3 := checkSchemaV1_points_le doc
    have b4 := checkLinkingV1_points_le doc url
    have b5 := checkCrawlV1_points_le doc status hdrs url furl
    omega
  refine ⟨⟨?_, ?_, ?_⟩, ?_, ?_, ?_⟩
  · rw [hstA, hmaxA, cast100, jsRound_hundred_mul]
  · rw [hstA]
    exact_mod_cast Nat.zero_le _
  · rw [hstA]
    exact_mod_cast hboundA
  · rw [hstB, hmaxB, cast100, jsRound_hundred_mul]
  · rw [hstB]
    exact_mod_cast Nat.zero_le _
  · rw [hstB]
    exact_mod_cast hboundB

/-- C2: for every input, every CheckResult in the returned checks sequence of
either engine iteration satisfies points ≤ maxPoints (in particular the
SchemaMarkup check, whose points accumulate across a page-type branch and the
cross-cutting bonus). -/
theorem checks_points_le_maxPoints (doc : Doc) (url : String) (status : Int)
    (hdrs : Headers) (furl : String) :
    (∀ c ∈ (analyzeHTML doc url status hdrs furl).checks, c.points ≤ c.maxPoints) ∧
    (∀ c ∈ (runAnalysisV1 doc url status hdrs furl).checks, c.points ≤ c.maxPoints) := by
  constructor
  · intro c hc
    rw [show (analyzeHTML doc url status hdrs furl).checks =
        [checkAnswerExtractionV2 doc, checkContentStructureV2 doc,
         checkSchemaPresenceV2 doc (detectPageType doc url),
         checkInternalLinkingV2 doc url,
         checkCrawlabilityV2 doc status hdrs url furl] from rfl] at hc
    simp only [List.mem_cons, List.not_mem_nil, or_false] at hc
    rcases hc with h | h | h | h | h <;> subst h
    · exact checkAnswerV2_points_le doc
    · exact checkStructureV2_points_le doc
    · exact checkSchemaV2_points_le doc (detectPageType doc url)
    · exact checkLinkingV2_points_le doc url
    · exact checkCrawlV2_points_le doc status hdrs url furl
  · intro c hc
    rw [show (runAnalysisV1 doc url status hdrs furl).checks =
        [checkAnswerExtractionV1 doc, checkContentStructureV1 doc,
         checkSchemaPresenceV1 doc,
         checkInternalLinkingV1 doc url,
         checkCrawlabilityV1 doc status hdrs url furl] from rfl] at hc
    simp only [List.mem_cons, List.not_mem_nil, or_false] at hc
    rcases hc with h | h | h | h | h <;> subst h
    · exact checkAnswerV1_points_le doc
    · exact checkStructureV1_points_le doc
    · exact checkSchemaV1_points_le doc
    · exact checkLinkingV1_points_le doc url
    · exact checkCrawlV1_points_le doc status hdrs url furl

/-- Witness for C2 at a concrete input: the first check of the analysis of an
empty document. -/
theorem checks_points_le_maxPoints_w :
    (checkAnswerExtractionV2 {}).points ≤ (checkAnswerExtractionV2 {}).maxPoints :=
  (checks_points_le_maxPoints {} "https://example.com/" 200 {} "https://example.com/").1
    (checkAnswerExtractionV2 {})
    (by rw [show (analyzeHTML {} "https://example.com/" 200 {} "https://example.com/").checks =
        [checkAnswerExtractionV2 {}, checkContentStructureV2 {},
         checkSchemaPresenceV2 {} (detectPageType {} "https://example.com/"),
         checkInternalLinkingV2 {} "https://example.com/",
         checkCrawlabilityV2 {} 200 {} "https://example.com/" "https://example.com/"] from rfl]
        exact List.mem_cons_self _ _)

/-- Concatenating the per-check gated recommendation pushes equals filtering
the failing non-optional checks and concatenating their recommendation
lists. -/
theorem gatedConcat (a b c d e : CheckResult)
    (ha : a.isOptional = false) (hb : b.isOptional = false)
    (hd : d.isOptional = false) (he : e.isOptional = false) :
    (if !a.pass then a.recommendations else []) ++
      (if !b.pass then b.recommendations else []) ++
      (if !c.pass && !c.isOptional then c.recommendations else []) ++
      (if !d.pass then d.recommendations else []) ++
      (if !e.pass then e.recommendations else []) =
    ([a, b, c, d, e].filter (fun x => !x.pass && !x.isOptional)).flatMap
      (fun x => x.recommendations) := by
  simp only [List.filter_cons, List.filter_nil]
  cases hpa : a.pass <;> cases hpb : b.pass <;> cases hgc : (!c.pass && !c.isOptional) <;>
    cases hpd : d.pass <;> cases hpe : e.pass <;>
    simp_all

/-- C7: for every input, in both engine iterations, the aggregated
recommendations list equals the concatenation, in the fixed check order
(AnswerExtraction, ContentStructure, SchemaMarkup, InternalLinking,
Crawlability), of the recommendation lists of exactly those checks whose
pass is false and whose isOptional is false, with no deduplication. -/
theorem recommendations_concat_failing (doc : Doc) (url : String) (status : Int)
    (hdrs : Headers) (furl : String) :
    ((analyzeHTML doc url status hdrs furl).recommendations =
      ((analyzeHTML doc url status hdrs furl).checks.filter
        (fun c => !c.pass && !c.isOptional)).flatMap (fun c => c.recommendations)) ∧
    ((runAnalysisV1 doc url status hdrs furl).recommendations =
      ((runAnalysisV1 doc url status hdrs furl).checks.filter
        (fun c => !c.pass && !c.isOptional)).flatMap (fun c => c.recommendations)) := by
  constructor
  · rw [show (analyzeHTML doc url status hdrs furl).checks =
        [checkAnswerExtractionV2 doc, checkContentStructureV2 doc,
         checkSchemaPresenceV2 doc (detectPageType doc url),
         checkInternalLinkingV2 doc url,
         checkCrawlabilityV2 doc status hdrs url furl] from rfl]
    rw [show (analyzeHTML doc url status hdrs furl).recommendations =
        (if !(checkAnswerExtractionV2 doc).pass then (checkAnswerExtractionV2 doc).recommendations else []) ++
        (if !(checkContentStructureV2 doc).pass then (checkContentStructureV2 doc).recommendations else []) ++
        (if !(checkSchemaPresenceV2 doc (detectPageType doc url)).pass &&
            !(checkSchemaPresenceV2 doc (detectPageType doc url)).isOptional then
          (checkSchemaPresenceV2 doc (detectPageType doc url)).recommendations else []) ++
        (if !(checkInternalLinkingV2 doc url).pass then (checkInternalLinkingV2 doc url).recommendations else []) ++
        (if !(checkCrawlabilityV2 doc status hdrs url furl).pass then
          (checkCrawlabilityV2 doc status hdrs url furl).recommendations else []) from rfl]
    exact gatedConcat _ _ _ _ _ (answerCoreV2_opt doc) rfl (linkingCoreV2_opt doc url) rfl
  · rw [show (runAnalysisV1 doc url status hdrs furl).checks =
        [checkAnswerExtractionV1 doc, checkContentStructureV1 doc,
         checkSchemaPresenceV1 doc,
         checkInternalLinkingV1 doc url,
         checkCrawlabilityV1 doc status hdrs url furl] from rfl]
    rw [show (runAnalysisV1 doc url status hdrs furl).recommendations =
        (if !(checkAnswerExtractionV1 doc).pass then (checkAnswerExtractionV1 doc).recommendations else []) ++
        (if !(checkContentStructureV1 doc).pass then (checkContentStructureV1 doc).recommendations else []) ++
        (if !(checkSchemaPresenceV1 doc).pass then (checkSchemaPresenceV1 doc).recommendations else []) ++
        (if !(checkInternalLinkingV1 doc url).pass then (checkInternalLinkingV1 doc url).recommendations else []) ++
        (if !(checkCrawlabilityV1 doc status hdrs url furl).pass then
          (checkCrawlabilityV1 doc status hdrs url furl).recommendations else []) from rfl]
    rw [show (if !(checkSchemaPresenceV1 doc).pass then (checkSchemaPresenceV1 doc).recommendations else []) =
        (if !(checkSchemaPresenceV1 doc).pass && !(checkSchemaPresenceV1 doc).isOptional then
          (checkSchemaPresenceV1 doc).recommendations else []) from by
      rw [show (checkSchemaPresenceV1 doc).isOptional = false from rfl]
      simp]
    exact gatedConcat _ _ _ _ _ (answerCoreV1_opt doc) rfl (linkingCoreV1_opt doc url) rfl

/-- C10: for every document with no H1 element, the AnswerExtraction check of
either iteration returns points 0, pass false and only the add-an-H1
recommendation — in particular no definition-paragraph or
explanatory-pattern credit, whatever paragraphs the document contains. -/
theorem no_h1_answer_extraction (doc : Doc) (h : doc.h1 = none) :
    checkAnswerExtractionV2 doc =
      { title := "Answer Extraction", points := 0, maxPoints := 30, pass := false,
        details := [], recommendations := ["Add a clear H1 heading to your page"] } ∧
    checkAnswerExtractionV1 doc =
      { title := "Answer Extraction", points := 0, maxPoints := 30, pass := false,
        details := [],
        recommendations := ["Add a clear H1 heading, ideally formatted as a question"] } := by
  unfold checkAnswerExtractionV2 checkAnswerExtractionV1 answerCoreV2 answerCoreV1
  rw [h]
  constructor <;> rfl

/-- A document with no h1 but with a short explanatory first paragraph that
would earn definition credit if the definition search ran. -/
def docNoH1 : Doc := { ps := ["AEO is a concise and quotable thing."] }

/-- Witness for C10: the document with a suitable first paragraph but no H1
gets zero points and only the add-an-H1 recommendation. -/
theorem no_h1_answer_extraction_w :
    checkAnswerExtractionV2 docNoH1 =
      { title := "Answer Extraction", points := 0, maxPoints := 30, pass := false,
        details := [], recommendations := ["Add a clear H1 heading to your page"] } ∧
    checkAnswerExtractionV1 docNoH1 =
      { title := "Answer Extraction", points := 0, maxPoints := 30, pass := false,
        details := [],
        recommendations := ["Add a clear H1 heading, ideally formatted as a question"] } :=
  no_h1_answer_extraction docNoH1 rfl

theorem foldl_addScript_filter (scripts : List LdScript) (acc : List String) :
    (scripts.filter LdScript.isParsed).foldl addScript acc = scripts.foldl addScript acc := by
  induction scripts generalizing acc with
  | nil => rfl
  | cons s t ih =>
    cases s with
    | invalid => simp [List.filter_cons, LdScript.isParsed, addScript, ih]
    | parsed tf => simp [List.filter_cons, LdScript.isParsed, ih]

theorem collectSchemas_filter (scripts : List LdScript) :
    collectSchemas (scripts.filter LdScript.isParsed) = collectSchemas scripts :=
  foldl_addScript_filter scripts []

/-- C8: schema script blocks whose text is not valid JSON are skipped per
block — the collected type set and the whole SchemaMarkup check result (in
either iteration) are the same as when only the successfully parsed blocks
are present, and the check always returns a result. -/
theorem schema_parse_failures_skipped (doc : Doc) (pt : String) :
    collectSchemas (doc.ldScripts.filter LdScript.isParsed) = collectSchemas doc.ldScripts ∧
    checkSchemaPresenceV2 { doc with ldScripts := doc.ldScripts.filter LdScript.isParsed } pt =
      checkSchemaPresenceV2 doc pt ∧
    checkSchemaPresenceV1 { doc with ldScripts := doc.ldScripts.filter LdScript.isParsed } =
      checkSchemaPresenceV1 doc := by
  refine ⟨collectSchemas_filter doc.ldScripts, ?_, ?_⟩
  · unfold checkSchemaPresenceV2 schemaCoreV2
    rw [show ({ doc with ldScripts := doc.ldScripts.filter LdScript.isParsed } : Doc).ldScripts =
      doc.ldScripts.filter LdScript.isParsed from rfl]
    rw [collectSchemas_filter doc.ldScripts]
  · unfold checkSchemaPresenceV1 schemaCoreV1
    rw [show ({ doc with ldScripts := doc.ldScripts.filter LdScript.isParsed } : Doc).ldScripts =
      doc.ldScripts.filter LdScript.isParsed from rfl]
    rw [collectSchemas_filter doc.ldScripts]

/-- C4: for every analysis of a document whose URL path is exactly `/` and
which carries no structured-data block at all, the SchemaMarkup check is
optional with 15 of 25 points and an empty recommendation list, and the
aggregated recommendations consist of the other four checks' contributions
only. -/
theorem homepage_schema_optional (doc : Doc) (url : String) (status : Int)
    (hdrs : Headers) (furl : String)
    (hpath : urlPath url = "/") (hnos : doc.ldScripts = []) :
    ((analyzeHTML doc url status hdrs furl).checks.getD 2 default).isOptional = true ∧
    ((analyzeHTML doc url status hdrs furl).checks.getD 2 default).points = 15 ∧
    ((analyzeHTML doc url status hdrs furl).checks.getD 2 default).recommendations = [] ∧
    (analyzeHTML doc url status hdrs furl).recommendations =
      (if !(checkAnswerExtractionV2 doc).pass then (checkAnswerExtractionV2 doc).recommendations else []) ++
      (if !(checkContentStructureV2 doc).pass then (checkContentStructureV2 doc).recommendations else []) ++
      (if !(checkInternalLinkingV2 doc url).pass then (checkInternalLinkingV2 doc url).recommendations else []) ++
      (if !(checkCrawlabilityV2 doc status hdrs url furl).pass then
        (checkCrawlabilityV2 doc status hdrs url furl).recommendations else []) := by
  have hpt : detectPageType doc url = "homepage" := by
    unfold detectPageType homepageMatch
    rw [hpath]
    simp
  have hschema : checkSchemaPresenceV2 doc (detectPageType doc url) =
      { title := "Schema Markup", points := 15, maxPoints := 25, pass := true,
        details := ["ℹ Homepage - Organization schema recommended but optional"],
        recommendations := [], isOptional := true } := by
    rw [hpt]
    unfold checkSchemaPresenceV2 schemaCoreV2
    rw [hnos]
    rfl
  have hgetD : (analyzeHTML doc url status hdrs furl).checks.getD 2 default =
      checkSchemaPresenceV2 doc (detectPageType doc url) := by
    rw [show (analyzeHTML doc url status hdrs furl).checks =
        [checkAnswerExtractionV2 doc, checkContentStructureV2 doc,
         checkSchemaPresenceV2 doc (detectPageType doc url),
         checkInternalLinkingV2 doc url,
         checkCrawlabilityV2 doc status hdrs url furl] from rfl]
    rfl
  refine ⟨?_, ?_, ?_, ?_⟩
  · rw [hgetD, hschema]
  · rw [hgetD, hschema]
  · rw [hgetD, hschema]
  · rw [show (analyzeHTML doc url status hdrs furl).recommendations =
        (if !(checkAnswerExtractionV2 doc).pass then (checkAnswerExtractionV2 doc).recommendations else []) ++
        (if !(checkContentStructureV2 doc).pass then (checkContentStructureV2 doc).recommendations else []) ++
        (if !(checkSchemaPresenceV2 doc (detectPageType doc url)).pass &&
            !(checkSchemaPresenceV2 doc (detectPageType doc url)).isOptional then
          (checkSchemaPresenceV2 doc (detectPageType doc url)).recommendations else []) ++
        (if !(checkInternalLinkingV2 doc url).pass then (checkInternalLinkingV2 doc url).recommendations else []) ++
        (if !(checkCrawlabilityV2 doc status hdrs url furl).pass then
          (checkCrawlabilityV2 doc status hdrs url furl).recommendations else []) from rfl]
    rw [hschema]
    simp

/-- Witness for C4: an empty document fetched from `https://example.com/`. -/
theorem homepage_schema_optional_w :
    ((analyzeHTML {} "https://example.com/" 200 {} "https://example.com/").checks.getD 2 default).isOptional = true ∧
    ((analyzeHTML {} "https://example.com/" 200 {} "https://example.com/").checks.getD 2 default).points = 15 ∧
    ((analyzeHTML {} "https://example.com/" 200 {} "https://example.com/").checks.getD 2 default).recommendations = [] ∧
    (analyzeHTML {} "https://example.com/" 200 {} "https://example.com/").recommendations =
      (if !(checkAnswerExtractionV2 {}).pass then (checkAnswerExtractionV2 {}).recommendations else []) ++
      (if !(checkContentStructureV2 {}).pass then (checkContentStructureV2 {}).recommendations else []) ++
      (if !(checkInternalLinkingV2 {} "https://example.com/").pass then
        (checkInternalLinkingV2 {} "https://example.com/").recommendations else []) ++
      (if !(checkCrawlabilityV2 {} 200 {} "https://example.com/" "https://example.com/").pass then
        (checkCrawlabilityV2 {} 200 {} "https://example.com/" "https://example.com/").recommendations else []) :=
  homepage_schema_optional {} "https://example.com/" 200 {} "https://example.com/" (by decide) rfl

/-- C3 (amended): the first iteration's Crawlability check scores the
no-exclusion-signal sub-check — 3 points exactly when neither a robots meta
tag containing "noindex" (case-insensitively) nor an x-robots-tag header
containing "noindex" is present — and emits the remove-noindex
recommendation exactly when a signal is present; the second iteration's
Crawlability check never emits that recommendation (it has no such
sub-check). -/
theorem crawlability_noindex_subcheck (doc : Doc) (status : Int) (hdrs : Headers)
    (u f : String) :
    ((checkCrawlabilityV1 doc status hdrs u f).points =
      (if status == 200 then 3 else 0) + (if noindexSignal doc hdrs then 0 else 3) +
      (if doc.canonical then 2 else 0) + (if titleOk doc then 2 else 0)) ∧
    (("Remove noindex directives" ∈ (checkCrawlabilityV1 doc status hdrs u f).recommendations) ↔
      noindexSignal doc hdrs = true) ∧
    ("Remove noindex directives" ∉ (checkCrawlabilityV2 doc status hdrs u f).recommendations) := by
  refine ⟨?_, ?_, ?_⟩
  · simp only [checkCrawlabilityV1, crawlCoreV1]
    simp only [apply_ite (Prod.fst)]
    split_ifs <;> simp_all
  · simp only [checkCrawlabilityV1, crawlCoreV1]
    simp only [apply_ite (Prod.snd)]
    split_ifs <;> simp_all
  · simp only [checkCrawlabilityV2, crawlCoreV2]
    simp only [apply_ite (Prod.snd)]
    split_ifs <;> simp_all

/-- A document carrying a robots "noindex" meta tag (plus a canonical tag and
a title). -/
def docNoidx : Doc := { robotsMeta := some "noindex", canonical := true, title := some "T" }

/-- Counterexample to C3 as stated: on the second iteration's Crawlability
check, with both exclusion signals present (robots meta tag and x-robots-tag
header both containing "noindex"), every point is still awarded (10 of 10)
and no remove-noindex recommendation is produced. -/
theorem crawlabilityV2_ignores_noindex :
    noindexSignal docNoidx { xRobotsTag := some "noindex" } = true ∧
    checkCrawlabilityV2 docNoidx 200 { xRobotsTag := some "noindex" }
        "https://example.com/a" "https://example.com/a" =
      { title := "Crawlability", points := 10, maxPoints := 10, pass := true,
        details := ["✓ Page loads successfully (200 OK)", "✓ Canonical tag present",
          "✓ Title tag present"],
        recommendations := [] } := by
  constructor
  · decide
  · decide

/-- Witness for C3 (amended) at a concrete input: noindex meta present, all
other sub-checks passing. -/
theorem crawlability_noindex_subcheck_w :
    ((checkCrawlabilityV1 docNoidx 200 {} "u" "f").points =
      (if (200 : Int) == 200 then 3 else 0) + (if noindexSignal docNoidx {} then 0 else 3) +
      (if docNoidx.canonical then 2 else 0) + (if titleOk docNoidx then 2 else 0)) ∧
    (("Remove noindex directives" ∈ (checkCrawlabilityV1 docNoidx 200 {} "u" "f").recommendations) ↔
      noindexSignal docNoidx {} = true) ∧
    ("Remove noindex directives" ∉ (checkCrawlabilityV2 docNoidx 200 {} "u" "f").recommendations) :=
  crawlability_noindex_subcheck docNoidx 200 {} "u" "f"

/-- A string of `n` letters `a`. -/
def aChars (n : Nat) : String := String.mk (List.replicate n 'a')

/-- A document whose h1 is followed by one definition paragraph of exactly
`n` characters (no question cue, no explanatory pattern). -/
def defParaDoc (n : Nat) : Doc :=
  { h1 := some ⟨"H1", "Intro"⟩, h1Siblings := [⟨"P", aChars n⟩], ps := [aChars n] }

set_option maxRecDepth 100000 in
/-- Counterexample to C5 as stated: in the second iteration's
AnswerExtraction check, a definition paragraph of 151 characters — one over
the claimed 150-character short threshold — receives exactly the same points
as one of 150 characters (h1 credit 10 + full length tier 10 = 20 in both),
instead of dropping to the next tier. -/
theorem definition_tier_no_drop_at_150 :
    (checkAnswerExtractionV2 (defParaDoc 150)).points = 20 ∧
    (checkAnswerExtractionV2 (defParaDoc 151)).points = 20 := by
  constructor
  · decide
  · decide

/-- C5 (amended): the definition-length tiers are per-iteration.  The first
iteration's thresholds are 150/300: exactly 150 characters earns the full
12-point tier and 151 drops to the 6-point tier.  The second iteration's
full-credit threshold is 250: 150, 151 and 250 characters all earn the full
10-point tier (plus the 5-point explanatory-pattern bonus when it applies),
and the drop — to the 7-point partial tier — happens at 251. -/
theorem definition_length_tiers :
    (∀ s : String, s.length = 150 → (defCreditV1 s).1 = 12) ∧
    (∀ s : String, s.length = 151 → (defCreditV1 s).1 = 6) ∧
    (∀ s : String, s.length = 150 → (defCreditV2 s).1 = 10 + (if hasIsAPattern s then 5 else 0)) ∧
    (∀ s : String, s.length = 151 → (defCreditV2 s).1 = 10 + (if hasIsAPattern s then 5 else 0)) ∧
    (∀ s : String, s.length = 250 → (defCreditV2 s).1 = 10 + (if hasIsAPattern s then 5 else 0)) ∧
    (∀ s : String, s.length = 251 → (defCreditV2 s).1 = 7) := by
  refine ⟨?_, ?_, ?_, ?_, ?_, ?_⟩ <;> intro s h <;>
    simp only [defCreditV1, defCreditV2, h] <;>
    norm_num <;>
    cases hasIsAPattern s <;> simp

set_option maxRecDepth 100000 in
/-- Witness for C5 (amended) at concrete inputs: strings of 150, 151, 250 and
251 letters. -/
theorem definition_length_tiers_w :
    (defCreditV1 (aChars 150)).1 = 12 ∧
    (defCreditV1 (aChars 151)).1 = 6 ∧
    (defCreditV2 (aChars 150)).1 = 10 + (if hasIsAPattern (aChars 150) then 5 else 0) ∧
    (defCreditV2 (aChars 151)).1 = 10 + (if hasIsAPattern (aChars 151) then 5 else 0) ∧
    (defCreditV2 (aChars 250)).1 = 10 + (if hasIsAPattern (aChars 250) then 5 else 0) ∧
    (defCreditV2 (aChars 251)).1 = 7 :=
  ⟨definition_length_tiers.1 _ (by decide),
   definition_length_tiers.2.1 _ (by decide),
   definition_length_tiers.2.2.1 _ (by decide),
   definition_length_tiers.2.2.2.1 _ (by decide),
   definition_length_tiers.2.2.2.2.1 _ (by decide),
   definition_length_tiers.2.2.2.2.2 _ (by decide)⟩

/-- Counterexample to C6 as stated: the URL
`https://example.com/blog/recipe/product` matches both the recipe pattern
and the product pattern, yet classification returns "article" (the
higher-priority article pattern also matches), not "recipe". -/
theorem recipe_product_url_classified_article :
    recipeMatch {} "https://example.com/blog/recipe/product" = true ∧
    productMatch {} "https://example.com/blog/recipe/product" = true ∧
    detectPageType {} "https://example.com/blog/recipe/product" = "article" := by
  refine ⟨?_, ?_, ?_⟩ <;> decide

/-- C6 (amended): classification is first-match-wins in the fixed order
homepage, article, recipe, product, faq, content; a document/URL matching
both the recipe and the product pattern but no higher-priority pattern
classifies as "recipe"; and the result is a function of the URL, the
document's title/first-heading text, and the presence of a Product-typed
itemtype attribute (two documents agreeing on those classify identically for
every URL). -/
theorem detectPageType_priority :
    (∀ (doc : Doc) (url : String), homepageMatch url = false → articleMatch url = false →
      recipeMatch doc url = true → productMatch doc url = true →
      detectPageType doc url = "recipe") ∧
    (∀ (d d2 : Doc) (url : String), titleLower d = titleLower d2 → h1Lower d = h1Lower d2 →
      d.hasProductItemtype = d2.hasProductItemtype →
      detectPageType d url = detectPageType d2 url) := by
  constructor
  · intro doc url h1 h2 h3 h4
    unfold detectPageType
    rw [h1, h2, h3]
    simp
  · intro d d2 url ht hh hp
    unfold detectPageType recipeMatch productMatch faqMatch
    rw [ht, hh, hp]

/-- Witness for C6 (amended) at concrete inputs: a URL matching recipe and
product patterns only, and two documents differing in an unqueried field. -/
theorem detectPageType_priority_w :
    detectPageType {} "https://example.com/recipe/product" = "recipe" ∧
    detectPageType {} "https://example.com/x" =
      detectPageType ({ canonical := true } : Doc) "https://example.com/x" :=
  ⟨detectPageType_priority.1 {} "https://example.com/recipe/product"
      (by decide) (by decide) (by decide) (by decide),
   detectPageType_priority.2 {} ({ canonical := true } : Doc) "https://example.com/x" rfl rfl rfl⟩

/-! ### C9: the dynamic-typing slip in the schema check

`JSON.parse` accepts `{"@type": 5}`, so the parse loop adds the number 5 to
the schema set; the later `schemaArray.some(s => s.includes(...))` calls
(server.js line 237 in the first iteration; 596, 605, 613, 621, 629 in the
second) then invoke `.includes` on a number, which throws a TypeError that
no handler catches — the analysis aborts instead of returning a result. -/

/-- A collected `@type` entry as JS sees it: a string, or — from valid JSON
with a mal-typed `@type` — a number. -/
inductive JVal
  | jstr (s : String)
  | jnum (n : Int)
deriving DecidableEq

/-- JS dynamic dispatch of `x.includes(pat)` inside the `schemaArray.some`
callbacks: on a string it is substring search; a number has no `includes`
method, so the call throws a TypeError. -/
def jsDynIncludes : JVal → String → Except String Bool
  | .jstr s, pat => .ok (jsIncludes s pat)
  | .jnum _, _ => .error "TypeError: s.includes is not a function"

/-- `schemaArray.some(s => s.includes("Article"))` (server.js 237) under JS
semantics: short-circuiting, an exception from the callback aborting the
whole call. -/
def someIncludesArticle : List JVal → Except String Bool
  | [] => .ok false
  | v :: rest =>
    match jsDynIncludes v "Article" with
    | .error e => .error e
    | .ok true => .ok true
    | .ok false => someIncludesArticle rest

/-- C9 (code evaluated at the failing input): with the schema set collected
from the valid-JSON block `{"@type": 5}`, the Article test of
checkSchemaPresence throws a TypeError instead of producing a boolean, so
the analysis does not return an AnalysisResult. -/
theorem schema_numeric_type_throws :
    someIncludesArticle [JVal.jnum 5] =
      Except.error "TypeError: s.includes is not a function" := rfl

end Aeo
